import Mathlib

/-!
Shallow embedding of `src/convertdata.py` (HealthVer → MCQA conversion).

Conventions of the embedding:
* Python strings are Lean `String`; document identifiers are kept as the
  stringified keys the code uses (`Python str of doc_id`).
* Python dicts are association lists; dict-comprehension rebuilds where a
  later entry overrides an earlier one are modelled by looking the key up
  in the reversed list.
* Missing dict fields (`d.get(key, default)`) are `Option` fields with
  `Option.getD`.
* `None` returns are `Option.none`; diagnostic `print` calls carry no data
  and are not modelled.
* Machine integers do not overflow in this program (all counts are small
  list lengths), so `Nat`/`Int` are used directly; the one place where a
  Python subtraction can go negative (`total_samples - calibration_samples`)
  is modelled in `Int`.
-/

/-- The three canonical verdict strings that `determine_majority_label`
ever appends to its `labels` list: SUPPORT, CONTRADICT, NEI
(the spelling of NOT_ENOUGH_INFO used by the code). -/
inductive Label where
  | SUPPORT
  | CONTRADICT
  | NEI
deriving DecidableEq, Repr, Fintype

open Label

/-- ASCII uppercasing, modelling Python `str.upper()` on the label strings
(the recognized keywords are all ASCII). -/
def upperStr (s : String) : String := String.mk (s.data.map Char.toUpper)

/-- The label-normalization chain of `convertdata.py` lines 118–126 (and its
verbatim copy at lines 131–139): case-insensitive match of
SUPPORT/SUPPORTS, CONTRADICT/REFUTES, NEI/NOT_ENOUGH_INFO; anything else
falls through to NEI (with a diagnostic warning, not modelled). -/
def normalize_label (raw : String) : Label :=
  let u := upperStr raw
  if u = "SUPPORT" ∨ u = "SUPPORTS" then SUPPORT
  else if u = "CONTRADICT" ∨ u = "REFUTES" then CONTRADICT
  else if u = "NEI" ∨ u = "NOT_ENOUGH_INFO" then NEI
  else NEI

/-- One evidence entry (`evidence[doc_id][j]`): a dict whose `label` field
may be absent (`evidence_item.get` with default NEI). The `sentences` field
is never read by `convertdata.py` and is omitted. -/
structure Evid where
  label : Option String
deriving DecidableEq, Repr

/-- A corpus document as `convertdata.py` reads it: `doc_id` (already
stringified), and the three fields accessed with `.get` — `title`,
`abstract` (a list of sentences in the corpus schema), `label`. -/
structure CorpusDoc where
  doc_id : String
  title : Option String
  abstract : Option (List String)
  label : Option String
deriving DecidableEq, Repr

/-- The dict comprehension keying each corpus record by its stringified
`doc_id`, followed
by a key lookup: on duplicate ids the later entry wins, hence the reversed
search. -/
def lookupDoc (corpus_data : List CorpusDoc) (id : String) : Option CorpusDoc :=
  corpus_data.reverse.find? (fun d => d.doc_id = id)

/-- The per-claim `evidence` dict: stringified doc id ↦ list of evidence
entries. -/
abbrev EvMap := List (String × List Evid)

/-- Membership test plus value access for a doc id key on the association
list. -/
def lookupEv (ev : EvMap) (id : String) : Option (List Evid) :=
  (ev.find? (fun p => p.1 = id)).map (fun p => p.2)

/-- A claim record as `convertdata.py` reads it. `claimId` models the
optional `id` field (absent ⇒ fall back to the loop index); `claim_text`
models the `claim` field with the `No claim text` default already
materialized; `source_split` is attached by the loader loop. -/
structure Claim where
  claimId : Option String
  claim_text : String
  doc_ids : List String
  evidence : EvMap
  source_split : String
deriving DecidableEq, Repr

/-- The per-document label-resolution loop of `determine_majority_label`
(lines 111–142): for each cited id in order, if the evidence dict has the
id, append one normalized label **per evidence entry**; otherwise fall back
to the `label` field of the corpus document; otherwise append NEI. -/
def resolveLabels (doc_ids : List String) (ev : EvMap)
    (corpus_dict : List CorpusDoc) : List Label :=
  match doc_ids with
  | [] => []
  | id :: rest =>
    (match lookupEv ev id with
     | some items => items.map (fun e => normalize_label (e.label.getD "NEI"))
     | none =>
       match lookupDoc corpus_dict id with
       | some d => [normalize_label (d.label.getD "NEI")]
       | none => [NEI]) ++ resolveLabels rest ev corpus_dict

/-- `set(labels) == {x, y}` for a two-element list `[a, b]`, with `x ≠ y`:
true exactly when `a` and `b` are `x` and `y` in either order. -/
def pairIs (a b x y : Label) : Prop :=
  (a = x ∧ b = y) ∨ (a = y ∧ b = x)

instance (a b x y : Label) : Decidable (pairIs a b x y) := by
  unfold pairIs; infer_instance

/-- The `len(labels) >= 3` majority vote (lines 169–180), expressed on the
three per-category counts. `Counter(labels).most_common()` orders the
categories that occur by descending count; the code skips when the top two
counts are equal, i.e. when at least two distinct categories attain the
maximal count; otherwise it returns the unique category at the maximum. -/
def pick3 (cS cC cN : Nat) : Option Label :=
  let m := max cS (max cC cN)
  if 2 ≤ (if cS = m then 1 else 0) + (if cC = m then 1 else 0)
        + (if cN = m then 1 else 0) then none
  else if cS = m then some SUPPORT
  else if cC = m then some CONTRADICT
  else some NEI

/-- The majority-rule dispatch of `determine_majority_label`
(lines 152–180): one label ⇒ itself; two labels ⇒ equal / NEI-vs-other /
SUPPORT-vs-CONTRADICT cases; three or more ⇒ `pick3` on the counts. The
empty case is unreachable there (guarded by `if not labels: return None`)
and returns `none`. -/
def applyMajority : List Label → Option Label
  | [] => none
  | [l] => some l
  | [a, b] =>
    if a = b then some a
    else if pairIs a b NEI SUPPORT ∨ pairIs a b NEI CONTRADICT then
      some (if a = SUPPORT ∨ b = SUPPORT then SUPPORT else CONTRADICT)
    else if pairIs a b SUPPORT CONTRADICT then none
    else some a
  | ls => pick3 (ls.count SUPPORT) (ls.count CONTRADICT) (ls.count NEI)

/-- The answer-letter mapping of lines 182–188: SUPPORT→"A",
CONTRADICT→"B", NEI→"C" (the final `else: return None` at line 189 is
unreachable, since `labels` only ever holds the three canonical strings). -/
def letterOf : Label → String
  | SUPPORT => "A"
  | CONTRADICT => "B"
  | NEI => "C"

/-- Lines 103–180 of `determine_majority_label`: the early skip when
`doc_ids` or `evidence` is empty, the per-document resolution, the
`if not labels` skip, and the majority rule — everything before the letter
mapping. -/
def aggLabelOf (c : Claim) (corpus_dict : List CorpusDoc) : Option Label :=
  if c.doc_ids = [] ∨ c.evidence = [] then none
  else
    let labels := resolveLabels c.doc_ids c.evidence corpus_dict
    if labels = [] then none
    else applyMajority labels

/-- `determine_majority_label(claim, corpus_dict)`: the resolved answer
letter `"A"`/`"B"`/`"C"`, or `none` when the claim is skipped. -/
def determine_majority_label (c : Claim) (corpus_dict : List CorpusDoc) :
    Option String :=
  (aggLabelOf c corpus_dict).map letterOf

/-- One output context record, with the fixed field layout of
`create_search_results` (lines 221–227). -/
structure SearchResult where
  page_name : String
  page_url : String
  page_snippet : String
  page_result : String
  page_last_modified : String
deriving DecidableEq, Repr

/-- Python single-space join of the sentence list. -/
def joinSpace (xs : List String) : String := String.intercalate " " xs

/-- The per-document body of `create_search_results` (lines 204–227):
title via `doc.get` with the synthesized `Health Document <id>` default,
snippet via `doc.get` with default `Health-related content` joined with single
spaces (the corpus schema stores the abstract as a list of sentences),
placeholders when the document is missing, and always-empty url, result
and last-modified fields. -/
def mkSearchResult (id : String) : Option CorpusDoc → SearchResult
  | some doc =>
    { page_name := doc.title.getD ("Health Document " ++ id)
      page_url := ""
      page_snippet :=
        match doc.abstract with
        | some xs => joinSpace xs
        | none => "Health-related content"
      page_result := ""
      page_last_modified := "" }
  | none =>
    { page_name := "Health Document " ++ id
      page_url := ""
      page_snippet := "Health-related content"
      page_result := ""
      page_last_modified := "" }

/-- `create_search_results(claim, corpus_data)` restricted to the data it
reads: one record per cited document id, in cited order, looked up in the
dict rebuilt from `corpus_data`. -/
def create_search_results (doc_ids : List String)
    (corpus_data : List CorpusDoc) : List SearchResult :=
  doc_ids.map (fun id => mkSearchResult id (lookupDoc corpus_data id))

/-- The claim-text → question-text mapping loaded from the CSV files. -/
abbrev QMap := List (String × String)

def lookupQ (qmap : QMap) (text : String) : Option String :=
  (qmap.find? (fun p => p.1 = text)).map (fun p => p.2)

/-- The fixed option lines appended to every question (lines 338/342). -/
def optionLines : String := "\nA. Supported\nB. Refuted\nC. Not Enough Information"

/-- Question assembly (lines 334–343): the CSV question for the stripped
claim text when one exists, else the templated default. -/
def mkQuestion (qmap : QMap) (claim_text : String) : String :=
  match lookupQ qmap claim_text.trim with
  | some q => q ++ optionLines
  | none =>
    "Is the following health claim supported by evidence: " ++ claim_text
      ++ optionLines

/-- One output MCQA sample (lines 349–355). -/
structure Sample where
  id : String
  question : String
  correct_answer : String
  options : List String
  search_results : List SearchResult
deriving DecidableEq, Repr

/-- Sample assembly for a claim at loop index `i` with resolved answer
`ans` (lines 334–355). -/
def mkSample (c : Claim) (i : Nat) (ans : String) (qmap : QMap)
    (corpus_data : List CorpusDoc) : Sample :=
  { id := c.source_split ++ "_" ++ c.claimId.getD (toString i)
    question := mkQuestion qmap c.claim_text
    correct_answer := ans
    options := ["A", "B", "C"]
    search_results := create_search_results c.doc_ids corpus_data }

/-- The claim-processing loop (lines 314–358), from index `i`: claims with
no `doc_ids` are skipped, claims whose majority rule returns `None` are
skipped, every other claim yields one sample, in order. (The skip counters
and label-distribution counters are diagnostics and carry no data.) -/
def processClaims (i : Nat) (claims : List Claim) (qmap : QMap)
    (corpus_data : List CorpusDoc) : List Sample :=
  match claims with
  | [] => []
  | c :: rest =>
    if c.doc_ids = [] then processClaims (i + 1) rest qmap corpus_data
    else
      match determine_majority_label c corpus_data with
      | none => processClaims (i + 1) rest qmap corpus_data
      | some ans =>
        mkSample c i ans qmap corpus_data
          :: processClaims (i + 1) rest qmap corpus_data

/-- `calibration_samples = min(50, max(5, total_samples // 4))` (line 376). -/
def calibration_count (total : Nat) : Nat := min 50 (max 5 (total / 4))

/-- The standard clamp the spec states the sizing rule with:
`clamp(x, lo, hi) = min(max(x, lo), hi)`. -/
def clampSpec (x lo hi : Nat) : Nat := min (max x lo) hi

/-- The split loop of lines 395–399, from index `i`: sample at index
`i < cnt` goes to the calibration list, otherwise to the test list, each
list kept in traversal order. -/
def splitSamples (cnt : Nat) (i : Nat) : List Sample → List Sample × List Sample
  | [] => ([], [])
  | s :: rest =>
    let p := splitSamples cnt (i + 1) rest
    if i < cnt then (s :: p.1, p.2) else (p.1, s :: p.2)

/-- The output dataset object (lines 378–387). `test_samples` is
`total_samples - calibration_samples` computed in Python integers, which
can be negative, hence `Int`. -/
structure Dataset where
  name : String
  description : String
  version : String
  total_samples : Nat
  calibration_samples : Nat
  test_samples : Int
  calibration : List Sample
  test : List Sample
deriving Repr

/-- Lines 375–399 of `convert_healthver_to_mcqa`, applied to the
already-shuffled valid-sample list: derive the counts and fill the two
split lists. -/
def buildDataset (shuffled : List Sample) : Dataset :=
  let total := shuffled.length
  let cnt := calibration_count total
  let p := splitSamples cnt 0 shuffled
  { name := "HEALTHVER_MCQA"
    description :=
      "HealthVer dataset converted to MCQA format for evaluating health claim verification systems."
    version := "1.0"
    total_samples := total
    calibration_samples := cnt
    test_samples := (total : Int) - (cnt : Int)
    calibration := p.1
    test := p.2 }

/-- A claim the processing loop keeps: it has cited documents and the
majority rule resolves. -/
def keptClaim (corpus_data : List CorpusDoc) (c : Claim) : Bool :=
  !c.doc_ids.isEmpty && (determine_majority_label c corpus_data).isSome

lemma pick3_strict_S {cS cC cN : Nat} (h1 : cC < cS) (h2 : cN < cS) :
    pick3 cS cC cN = some SUPPORT := by
  unfold pick3
  dsimp only
  rw [show max cS (max cC cN) = cS from by omega]
  rw [if_neg (by omega : ¬ cC = cS), if_neg (by omega : ¬ cN = cS),
    if_pos (rfl : cS = cS)]
  norm_num

lemma pick3_tie {cS cC cN : Nat}
    (h : (cS = cC ∧ cN ≤ cS) ∨ (cS = cN ∧ cC ≤ cS) ∨ (cC = cN ∧ cS ≤ cC)) :
    pick3 cS cC cN = none := by
  unfold pick3
  dsimp only
  rcases h with ⟨he, hle⟩ | ⟨he, hle⟩ | ⟨he, hle⟩
  · rw [show max cS (max cC cN) = cS from by omega]
    rw [if_pos (rfl : cS = cS), if_pos (he.symm : cC = cS)]
    rw [if_pos (by omega : 2 ≤ 1 + 1 + if cN = cS then 1 else 0)]
  · rw [show max cS (max cC cN) = cS from by omega]
    rw [if_pos (rfl : cS = cS), if_pos (he.symm : cN = cS)]
    rw [if_pos (by omega : 2 ≤ 1 + (if cC = cS then 1 else 0) + 1)]
  · rw [show max cS (max cC cN) = cC from by omega]
    rw [if_pos (rfl : cC = cC), if_pos (he.symm : cN = cC)]
    rw [if_pos (by omega : 2 ≤ (if cS = cC then 1 else 0) + 1 + 1)]

lemma pick3_strict_C {cS cC cN : Nat} (h1 : cS < cC) (h2 : cN < cC) :
    pick3 cS cC cN = some CONTRADICT := by
  unfold pick3
  dsimp only
  rw [show max cS (max cC cN) = cC from by omega]
  rw [if_neg (by omega : ¬ cS = cC), if_neg (by omega : ¬ cN = cC),
    if_pos (rfl : cC = cC)]
  simp [Nat.ne_of_lt h1, Nat.ne_of_lt h2]

lemma pick3_strict_N {cS cC cN : Nat} (h1 : cS < cN) (h2 : cC < cN) :
    pick3 cS cC cN = some NEI := by
  unfold pick3
  dsimp only
  rw [show max cS (max cC cN) = cN from by omega]
  rw [if_neg (by omega : ¬ cS = cN), if_neg (by omega : ¬ cC = cN),
    if_pos (rfl : cN = cN)]
  simp [Nat.ne_of_lt h1, Nat.ne_of_lt h2]

lemma applyMajority_ge3 (ls : List Label) (h : 3 ≤ ls.length) :
    applyMajority ls
      = pick3 (ls.count SUPPORT) (ls.count CONTRADICT) (ls.count NEI) := by
  obtain _ | ⟨a, _ | ⟨b, _ | ⟨c, t⟩⟩⟩ := ls
  · simp at h
  · simp at h
  · simp at h
  · rfl

/-- C2: for a per-document label list of three or more elements, the
aggregator returns the label with strictly the highest count and skips
whenever two distinct labels tie for the highest count; in particular
[SUPPORT, SUPPORT, CONTRADICT] resolves to SUPPORT and
[SUPPORT, CONTRADICT, NEI] is skipped. -/
theorem C2_majority_vote :
    (∀ ls : List Label, 3 ≤ ls.length →
      (∀ lb : Label,
        (∀ lb2 : Label, lb2 ≠ lb → ls.count lb2 < ls.count lb) →
        applyMajority ls = some lb) ∧
      (∀ lb lb2 : Label, lb ≠ lb2 → ls.count lb = ls.count lb2 →
        (∀ lb3 : Label, ls.count lb3 ≤ ls.count lb) →
        applyMajority ls = none)) ∧
    applyMajority [SUPPORT, SUPPORT, CONTRADICT] = some SUPPORT ∧
    applyMajority [SUPPORT, CONTRADICT, NEI] = none := by
  refine ⟨fun ls h3 => ⟨?_, ?_⟩, by decide, by decide⟩
  · intro lb hstrict
    rw [applyMajority_ge3 ls h3]
    cases lb with
    | SUPPORT =>
      exact pick3_strict_S (hstrict CONTRADICT (by decide))
        (hstrict NEI (by decide))
    | CONTRADICT =>
      exact pick3_strict_C (hstrict SUPPORT (by decide))
        (hstrict NEI (by decide))
    | NEI =>
      exact pick3_strict_N (hstrict SUPPORT (by decide))
        (hstrict CONTRADICT (by decide))
  · intro lb lb2 hne heq hmax
    rw [applyMajority_ge3 ls h3]
    apply pick3_tie
    cases lb <;> cases lb2 <;> simp_all

/-- C1: for a per-document label list of exactly two elements, the
aggregator returns the shared label when the two are equal, returns the
non-NEI label when exactly one of the two is NOT_ENOUGH_INFO, and skips
the claim (no label) when the pair is exactly SUPPORT vs CONTRADICT. -/
theorem C1_two_label_rule (a b : Label) :
    (a = b → applyMajority [a, b] = some a) ∧
    (a = NEI → b ≠ NEI → applyMajority [a, b] = some b) ∧
    (b = NEI → a ≠ NEI → applyMajority [a, b] = some a) ∧
    (pairIs a b SUPPORT CONTRADICT → applyMajority [a, b] = none) := by
  cases a <;> cases b <;> decide

/-- Witness for C1 at the concrete pairs [NEI, SUPPORT] and
[SUPPORT, CONTRADICT]. -/
theorem C1_two_label_rule_witness :
    applyMajority [NEI, SUPPORT] = some SUPPORT ∧
    applyMajority [SUPPORT, CONTRADICT] = none :=
  ⟨(C1_two_label_rule NEI SUPPORT).2.1 rfl (by decide),
   (C1_two_label_rule SUPPORT CONTRADICT).2.2.2 (Or.inl ⟨rfl, rfl⟩)⟩

/-- Witness for C2 at the concrete list
[SUPPORT, SUPPORT, CONTRADICT, NEI, SUPPORT]. -/
theorem C2_majority_vote_witness :
    applyMajority [SUPPORT, SUPPORT, CONTRADICT, NEI, SUPPORT] = some SUPPORT :=
  (C2_majority_vote.1 [SUPPORT, SUPPORT, CONTRADICT, NEI, SUPPORT]
    (by decide)).1 SUPPORT (by decide)

/-- C8: label normalization is case-insensitive and total: every casing
of SUPPORT or SUPPORTS maps to SUPPORT, of CONTRADICT or REFUTES to
CONTRADICT, of NEI or NOT_ENOUGH_INFO to NOT_ENOUGH_INFO, and every
other raw string also maps to NOT_ENOUGH_INFO, never failing. -/
theorem C8_normalization_total :
    (∀ s : String, upperStr s = "SUPPORT" ∨ upperStr s = "SUPPORTS" →
      normalize_label s = SUPPORT) ∧
    (∀ s : String, upperStr s = "CONTRADICT" ∨ upperStr s = "REFUTES" →
      normalize_label s = CONTRADICT) ∧
    (∀ s : String, upperStr s = "NEI" ∨ upperStr s = "NOT_ENOUGH_INFO" →
      normalize_label s = NEI) ∧
    (∀ s : String, upperStr s ≠ "SUPPORT" → upperStr s ≠ "SUPPORTS" →
      upperStr s ≠ "CONTRADICT" → upperStr s ≠ "REFUTES" →
      upperStr s ≠ "NEI" → upperStr s ≠ "NOT_ENOUGH_INFO" →
      normalize_label s = NEI) := by
  refine ⟨fun s h => ?_, fun s h => ?_, fun s h => ?_,
    fun s h1 h2 h3 h4 h5 h6 => ?_⟩
  · unfold normalize_label
    rw [if_pos h]
  · unfold normalize_label
    rw [if_neg (by rcases h with h | h <;> rw [h] <;> decide), if_pos h]
  · unfold normalize_label
    rw [if_neg (by rcases h with h | h <;> rw [h] <;> decide),
      if_neg (by rcases h with h | h <;> rw [h] <;> decide), if_pos h]
  · simp [normalize_label, h1, h2, h3, h4, h5, h6]

/-- Witness for C8 at mixed-case and unrecognized raw strings. -/
theorem C8_normalization_witness :
    normalize_label "sUpPoRt" = SUPPORT ∧ normalize_label "Refutes" = CONTRADICT ∧
    normalize_label "garbage" = NEI :=
  ⟨C8_normalization_total.1 "sUpPoRt" (Or.inl (by decide)),
   C8_normalization_total.2.1 "Refutes" (Or.inr (by decide)),
   C8_normalization_total.2.2.2 "garbage" (by decide) (by decide) (by decide)
     (by decide) (by decide) (by decide)⟩

/-- C9: a resolved canonical verdict is turned into the correct option
letter A for SUPPORT, B for CONTRADICT, C for NOT_ENOUGH_INFO, and the
aggregator only ever returns one of these three letters or a skip. -/
theorem C9_letter_mapping :
    (letterOf SUPPORT = "A" ∧ letterOf CONTRADICT = "B" ∧ letterOf NEI = "C") ∧
    (∀ (c : Claim) (k : List CorpusDoc) (lb : Label),
      aggLabelOf c k = some lb →
      determine_majority_label c k = some (letterOf lb)) ∧
    (∀ (c : Claim) (k : List CorpusDoc),
      determine_majority_label c k = none ∨
        ∃ lb : Label, determine_majority_label c k = some (letterOf lb)) := by
  refine ⟨⟨rfl, rfl, rfl⟩, fun c k lb h => ?_, fun c k => ?_⟩
  · unfold determine_majority_label
    rw [h]
    rfl
  · unfold determine_majority_label
    cases aggLabelOf c k with
    | none => exact Or.inl rfl
    | some lb => exact Or.inr ⟨lb, rfl⟩

/-- Witness for C9 on a claim resolving to SUPPORT. -/
theorem C9_letter_mapping_witness :
    determine_majority_label
      ⟨some "1", "c", ["1"], [("1", [⟨some "SUPPORT"⟩])], "dev"⟩ []
      = some (letterOf SUPPORT) :=
  C9_letter_mapping.2.1 _ _ SUPPORT (by decide)

/-- Counterexample to C3 as stated: a single cited document whose evidence
list has two entries contributes two labels, not one, so the label list is
longer than the cited-document list; with entries SUPPORT and CONTRADICT
the claim is even skipped as a conflicting pair, although the
first-entry rule would give SUPPORT. -/
theorem C3_counterexample :
    (resolveLabels ["1"]
        [("1", [⟨some "SUPPORT"⟩, ⟨some "CONTRADICT"⟩])] []).length = 2 ∧
    (["1"] : List String).length = 1 ∧
    determine_majority_label
      ⟨some "1", "c", ["1"],
        [("1", [⟨some "SUPPORT"⟩, ⟨some "CONTRADICT"⟩])], "dev"⟩ [] = none := by
  decide

/-- C3 (amended): for every cited document id with an entry in the
evidence mapping, one label per evidence entry of that id is contributed,
so the label list length equals the total number of evidence entries over
cited ids present in the mapping plus one for each cited id absent from
it. -/
theorem C3_per_entry_contribution :
    (∀ (ev : EvMap) (k : List CorpusDoc) (id : String) (items : List Evid)
        (rest : List String),
      lookupEv ev id = some items →
      resolveLabels (id :: rest) ev k
        = items.map (fun e => normalize_label (e.label.getD "NEI"))
            ++ resolveLabels rest ev k) ∧
    (∀ (dids : List String) (ev : EvMap) (k : List CorpusDoc),
      (resolveLabels dids ev k).length
        = (dids.map (fun id =>
            match lookupEv ev id with
            | some items => items.length
            | none => 1)).sum) := by
  constructor
  · intro ev k id items rest h
    conv_lhs => rw [resolveLabels]
    rw [h]
  · intro dids ev k
    induction dids with
    | nil => rfl
    | cons id rest ih =>
      conv_lhs => rw [resolveLabels]
      cases hEv : lookupEv ev id with
      | some items => simp [hEv, ih]
      | none => cases hDoc : lookupDoc k id <;> simp [hEv, hDoc, ih] <;> omega

/-- Witness for C3 (amended): a document with two SUPPORT-entries
contributes two SUPPORT labels. -/
theorem C3_per_entry_witness :
    resolveLabels ["1"] [("1", [⟨some "SUPPORT"⟩, ⟨some "SUPPORTS"⟩])] []
      = [SUPPORT, SUPPORT] := by
  have h := C3_per_entry_contribution.1
    [("1", [⟨some "SUPPORT"⟩, ⟨some "SUPPORTS"⟩])] [] "1"
    [⟨some "SUPPORT"⟩, ⟨some "SUPPORTS"⟩] [] (by decide)
  rw [h]
  decide

/-- Counterexample to C4 as stated: with an entirely empty evidence
mapping the claim is skipped outright, even though the per-document
corpus fallback would resolve the single cited document to SUPPORT. -/
theorem C4_counterexample :
    determine_majority_label ⟨some "9", "c", ["1"], [], "dev"⟩
        [⟨"1", none, none, some "SUPPORT"⟩] = none ∧
    resolveLabels ["1"] [] [⟨"1", none, none, some "SUPPORT"⟩] = [SUPPORT] := by
  decide

/-- C4 (amended): for every claim with a non-empty cited-document list
and a **non-empty** evidence mapping, the result is the aggregation of
the per-document resolution, in which a cited id absent from the mapping
resolves to the normalized corpus document-level label when the corpus
has one and to NOT_ENOUGH_INFO when it does not; when the evidence
mapping is entirely empty the claim is skipped before any per-document
resolution. -/
theorem C4_corpus_fallback :
    (∀ (c : Claim) (k : List CorpusDoc), c.doc_ids ≠ [] → c.evidence ≠ [] →
      determine_majority_label c k
        = (if resolveLabels c.doc_ids c.evidence k = [] then none
           else applyMajority (resolveLabels c.doc_ids c.evidence k)).map
            letterOf) ∧
    (∀ (ev : EvMap) (k : List CorpusDoc) (id : String) (rest : List String)
        (d : CorpusDoc),
      lookupEv ev id = none → lookupDoc k id = some d →
      resolveLabels (id :: rest) ev k
        = normalize_label (d.label.getD "NEI") :: resolveLabels rest ev k) ∧
    (∀ (ev : EvMap) (k : List CorpusDoc) (id : String) (rest : List String),
      lookupEv ev id = none → lookupDoc k id = none →
      resolveLabels (id :: rest) ev k = NEI :: resolveLabels rest ev k) := by
  refine ⟨fun c k h1 h2 => ?_, fun ev k id rest d h1 h2 => ?_,
    fun ev k id rest h1 h2 => ?_⟩
  · unfold determine_majority_label aggLabelOf
    rw [if_neg (by simp [h1, h2])]
  · conv_lhs => rw [resolveLabels]
    rw [h1, h2]
    rfl
  · conv_lhs => rw [resolveLabels]
    rw [h1, h2]
    rfl

/-- Witness for C4 (amended): an id absent from a non-empty evidence
mapping falls back to the corpus label REFUTES, normalized to
CONTRADICT. -/
theorem C4_corpus_fallback_witness :
    resolveLabels ["1"] [("2", [])] [⟨"1", none, none, some "REFUTES"⟩]
      = [CONTRADICT] := by
  have h := C4_corpus_fallback.2.1 [("2", [])]
    [⟨"1", none, none, some "REFUTES"⟩] "1" []
    ⟨"1", none, none, some "REFUTES"⟩ (by decide) (by decide)
  rw [h]
  decide

/-- Counterexample to C7 as stated: a document that is present in the
corpus but carries no title still gets the placeholder page name, so the
placeholder is not reserved to absent documents. -/
theorem C7_counterexample :
    lookupDoc [⟨"7", none, some ["x"], none⟩] "7"
      = some ⟨"7", none, some ["x"], none⟩ ∧
    (create_search_results ["7"] [⟨"7", none, some ["x"], none⟩]).map
      (fun r => r.page_name) = ["Health Document 7"] := by
  decide

/-- C7 (amended): the context list has exactly one record per cited
document id, in cited order; each record has the five fixed fields, with
page_name the corpus title when the document is present and titled and
the Health Document <id> placeholder otherwise, page_snippet the abstract
sentences joined with single spaces when the document and abstract are
present and the fixed placeholder otherwise, and empty page_url,
page_result and page_last_modified. -/
theorem C7_context_records :
    (∀ (dids : List String) (k : List CorpusDoc),
      (create_search_results dids k).length = dids.length ∧
      ∀ i : Nat, i < dids.length →
        (create_search_results dids k)[i]?
          = (dids[i]?).map (fun id => mkSearchResult id (lookupDoc k id))) ∧
    (∀ (id : String) (doc : CorpusDoc),
      (mkSearchResult id (some doc)).page_name
          = doc.title.getD ("Health Document " ++ id) ∧
      (mkSearchResult id (some doc)).page_snippet
          = (match doc.abstract with
             | some xs => joinSpace xs
             | none => "Health-related content") ∧
      (mkSearchResult id (some doc)).page_url = "" ∧
      (mkSearchResult id (some doc)).page_result = "" ∧
      (mkSearchResult id (some doc)).page_last_modified = "") ∧
    (∀ id : String,
      mkSearchResult id none
        = ⟨"Health Document " ++ id, "", "Health-related content", "", ""⟩) := by
  refine ⟨fun dids k => ⟨by simp [create_search_results], ?_⟩,
    fun id doc => ⟨rfl, rfl, rfl, rfl, rfl⟩, fun id => rfl⟩
  intro i hi
  simp [create_search_results]

/-- Witness for C7 (amended) at a one-document cited list over an empty
corpus. -/
theorem C7_context_records_witness :
    (0 : Nat) < (["7"] : List String).length ∧
    (create_search_results ["7"] [])[0]?
      = some (mkSearchResult "7" (lookupDoc [] "7")) := by
  refine ⟨by decide, ?_⟩
  have h := ((C7_context_records.1 ["7"] []).2) 0 (by decide)
  simpa using h

/-- C5: for every valid-sample total, the calibration count equals
clamp(floor(total/4), 5, 50); in particular 50 for total 200, 10 for
total 40, and 5 for total 12. -/
theorem C5_calibration_sizing :
    (∀ total : Nat, 1 ≤ total →
      calibration_count total = clampSpec (total / 4) 5 50) ∧
    calibration_count 200 = 50 ∧ calibration_count 40 = 10 ∧
    calibration_count 12 = 5 := by
  refine ⟨fun total h => ?_, by decide, by decide, by decide⟩
  unfold calibration_count clampSpec
  omega

/-- Witness for C5 at total 7. -/
theorem C5_calibration_sizing_witness :
    1 ≤ 7 ∧ calibration_count 7 = clampSpec (7 / 4) 5 50 :=
  ⟨by decide, C5_calibration_sizing.1 7 (by decide)⟩

lemma splitSamples_fst_nil (cnt : Nat) (ls : List Sample) :
    ∀ i, cnt ≤ i → (splitSamples cnt i ls).1 = [] := by
  induction ls with
  | nil => intro i h; rfl
  | cons s rest ih =>
    intro i h
    simp only [splitSamples]
    rw [if_neg (by omega : ¬ i < cnt)]
    exact ih (i + 1) (by omega)

lemma splitSamples_append (cnt : Nat) (ls : List Sample) :
    ∀ i, (splitSamples cnt i ls).1 ++ (splitSamples cnt i ls).2 = ls := by
  induction ls with
  | nil => intro i; rfl
  | cons s rest ih =>
    intro i
    simp only [splitSamples]
    by_cases hc : i < cnt
    · rw [if_pos hc]
      simpa using ih (i + 1)
    · rw [if_neg hc]
      have h1 : (splitSamples cnt (i + 1) rest).1 = [] :=
        splitSamples_fst_nil cnt rest (i + 1) (by omega)
      have h2 := ih (i + 1)
      rw [h1] at h2
      simp at h2
      simp [h1, h2]

lemma splitSamples_all (cnt : Nat) (ls : List Sample) :
    ∀ i, i + ls.length ≤ cnt → splitSamples cnt i ls = (ls, []) := by
  induction ls with
  | nil => intro i h; rfl
  | cons s rest ih =>
    intro i h
    simp only [List.length_cons] at h
    simp only [splitSamples]
    rw [ih (i + 1) (by omega)]
    rw [if_pos (by omega : i < cnt)]

lemma processClaims_length (claims : List Claim) (qmap : QMap)
    (k : List CorpusDoc) :
    ∀ i, (processClaims i claims qmap k).length = claims.countP (keptClaim k) := by
  induction claims with
  | nil => intro i; rfl
  | cons c rest ih =>
    intro i
    simp only [processClaims]
    by_cases h1 : c.doc_ids = []
    · rw [if_pos h1, ih (i + 1)]
      have hk : keptClaim k c = false := by simp [keptClaim, h1]
      simp [List.countP_cons, hk]
    · rw [if_neg h1]
      cases hd : determine_majority_label c k with
      | none =>
        rw [ih (i + 1)]
        have hk : keptClaim k c = false := by simp [keptClaim, hd]
        simp [List.countP_cons, hk]
      | some ans =>
        simp only [List.length_cons]
        rw [ih (i + 1)]
        have hk : keptClaim k c = true := by simp [keptClaim, h1, hd]
        simp [List.countP_cons, hk]

/-- C6: every valid sample lands in exactly one of the two output lists
(their concatenation is the shuffled valid-sample list), the list lengths
sum to the recorded total, the total equals the number of claims the
processing loop kept, and the recorded calibration and test counts sum to
the total. -/
theorem C6_partition_invariants :
    ∀ (claims : List Claim) (qmap : QMap) (k : List CorpusDoc)
      (shuffled : List Sample),
      shuffled.Perm (processClaims 0 claims qmap k) → shuffled ≠ [] →
      (buildDataset shuffled).calibration ++ (buildDataset shuffled).test
          = shuffled ∧
      (buildDataset shuffled).calibration.length
          + (buildDataset shuffled).test.length
          = (buildDataset shuffled).total_samples ∧
      (buildDataset shuffled).total_samples = claims.countP (keptClaim k) ∧
      ((buildDataset shuffled).calibration_samples : Int)
            + (buildDataset shuffled).test_samples
          = ((buildDataset shuffled).total_samples : Int) := by
  intro claims qmap k shuffled hperm hne
  have happ : (buildDataset shuffled).calibration
      ++ (buildDataset shuffled).test = shuffled := by
    simpa [buildDataset] using splitSamples_append
      (calibration_count shuffled.length) shuffled 0
  refine ⟨happ, ?_, ?_, ?_⟩
  · have hlen := congrArg List.length happ
    simp only [List.length_append] at hlen
    simpa [buildDataset] using hlen
  · have hlen := hperm.length_eq
    rw [processClaims_length claims qmap k 0] at hlen
    simpa [buildDataset] using hlen
  · simp only [buildDataset]
    omega

/-- Witness for C6 on a one-claim run that produces one valid sample. -/
theorem C6_partition_invariants_witness :
    ((processClaims 0 [⟨some "1", "c", ["1"], [("1", [⟨some "SUPPORT"⟩])],
        "dev"⟩] [] []).Perm (processClaims 0 [⟨some "1", "c", ["1"],
        [("1", [⟨some "SUPPORT"⟩])], "dev"⟩] [] []) ∧
      processClaims 0 [⟨some "1", "c", ["1"], [("1", [⟨some "SUPPORT"⟩])],
        "dev"⟩] [] [] ≠ []) ∧
    (buildDataset (processClaims 0 [⟨some "1", "c", ["1"],
        [("1", [⟨some "SUPPORT"⟩])], "dev"⟩] [] [])).total_samples
      = ([⟨some "1", "c", ["1"], [("1", [⟨some "SUPPORT"⟩])],
          "dev"⟩] : List Claim).countP (keptClaim []) := by
  have hne : processClaims 0 [⟨some "1", "c", ["1"],
      [("1", [⟨some "SUPPORT"⟩])], "dev"⟩] [] [] ≠ [] := by
    simp [processClaims, determine_majority_label]
    decide
  exact ⟨⟨List.Perm.refl _, hne⟩,
    (C6_partition_invariants _ [] [] _ (List.Perm.refl _) hne).2.2.1⟩

/-- C10: when the number of valid samples is positive but below five,
every sample goes to the calibration list and the test list is empty,
while the recorded calibration_samples field is 5 (exceeding the actual
calibration length) and the recorded test_samples field is negative. -/
theorem C10_small_total_behavior :
    ∀ shuffled : List Sample,
      0 < shuffled.length → shuffled.length < 5 →
      (buildDataset shuffled).calibration = shuffled ∧
      (buildDataset shuffled).test = [] ∧
      (buildDataset shuffled).calibration_samples = 5 ∧
      (buildDataset shuffled).calibration.length
          < (buildDataset shuffled).calibration_samples ∧
      (buildDataset shuffled).test_samples = (shuffled.length : Int) - 5 ∧
      (buildDataset shuffled).test_samples < 0 := by
  intro s h1 h2
  have hcnt : calibration_count s.length = 5 := by
    unfold calibration_count
    omega
  have hsplit : splitSamples (calibration_count s.length) 0 s = (s, []) := by
    apply splitSamples_all
    omega
  refine ⟨?_, ?_, ?_, ?_, ?_, ?_⟩
  · simp [buildDataset, hsplit]
  · simp [buildDataset, hsplit]
  · simp [buildDataset, hcnt]
  · simp [buildDataset, hcnt, hcnt ▸ hsplit]
    omega
  · simp [buildDataset, hcnt]
  · simp [buildDataset, hcnt]
    omega

/-- Witness for C10 on a one-sample list. -/
theorem C10_small_total_witness :
    (0 : Nat) < ([⟨"dev_0", "q", "A", ["A", "B", "C"], []⟩] : List Sample).length ∧
    ([⟨"dev_0", "q", "A", ["A", "B", "C"], []⟩] : List Sample).length < 5 ∧
    (buildDataset [⟨"dev_0", "q", "A", ["A", "B", "C"], []⟩]).calibration
      = [⟨"dev_0", "q", "A", ["A", "B", "C"], []⟩] ∧
    (buildDataset [⟨"dev_0", "q", "A", ["A", "B", "C"], []⟩]).test = [] ∧
    (buildDataset [⟨"dev_0", "q", "A", ["A", "B", "C"], []⟩]).calibration_samples
      = 5 ∧
    (buildDataset [⟨"dev_0", "q", "A", ["A", "B", "C"], []⟩]).test_samples < 0 := by
  have h := C10_small_total_behavior
    [⟨"dev_0", "q", "A", ["A", "B", "C"], []⟩] (by decide) (by decide)
  exact ⟨by decide, by decide, h.1, h.2.1, h.2.2.1, h.2.2.2.2.2⟩
